import Mathlib

/-!
gofast: the HTTP entry point of the FastCGI adapter (`host.go`).

A shallow embedding of `defaultHandler.ServeHTTP` and of the few declarations
around it, followed by the properties of one dispatch.

Conventions of the embedding

* A Go `error` is the text its `Error()` method returns; a nil error is `none`.
* An `http.ResponseWriter` is an interface, so its state is the list of calls
  made on it, in order.  Collaborators (callback, response relay) are functions
  on that state; `http.Error` is one recorded call.  `responseOf` gives the
  status and body those calls add up to under the rules of package `net/http`.
* Types that `host.go` uses but does not declare (`Client`, `ResponsePipe`,
  `Request`, `*log.Logger`) are handles; the bodies of their methods are taken
  as parameters, gathered in `Methods`.
* One dispatch yields the final writer, the ordered trace of calls the handler
  made on its collaborators and on the logging sinks, and whether it ended in
  a panic.
-/

namespace gofast

/-- The text returned by the `Error()` method of a non-nil Go `error`. -/
abbrev GoError := String

/-- One call made on an `http.ResponseWriter`.  `httpError msg code` is the call
`http.Error(w, msg, code)` of package `net/http`. -/
inductive WriterCall where
  | setHeader (key value : String)
  | writeHeader (code : Nat)
  | write (bytes : String)
  | httpError (msg : String) (code : Nat)
  deriving DecidableEq, Repr

/-- The state of an `http.ResponseWriter`: the calls made on it so far. -/
abbrev ResponseWriter := List WriterCall

/-- The inbound `*http.Request`, as far as the handler is concerned: it is only
passed on. -/
structure HttpRequest where
  method : String
  url : String
  deriving DecidableEq, Repr

/-- Constant `http.StatusBadGateway`. -/
def StatusBadGateway : Nat := 502

/-- Constant `http.StatusInternalServerError`. -/
def StatusInternalServerError : Nat := 500

/-- The call `http.Error(w, msg, code)`. -/
def http.Error (w : ResponseWriter) (msg : String) (code : Nat) : ResponseWriter :=
  w ++ [WriterCall.httpError msg code]

/-- The text `fmt.Sprintf(pre + "%s", arg)`.  Every format string of `host.go` is
a fixed text followed by a single `%s` verb; `pre` is that fixed text. -/
def Sprintf (pre : String) (arg : String) : String :=
  pre ++ arg

/-- A FastCGI client handle (interface `Client`, declared outside `host.go`). -/
structure Client where
  id : Nat
  deriving DecidableEq, Repr

/-- The session handler's input (type `Request`, declared outside `host.go`). -/
structure Request where
  Raw : HttpRequest
  deriving DecidableEq, Repr

/-- Modelled from the spec: `NewRequest` is declared outside `host.go`; the spec
describes it as an adapter wrapping the inbound HTTP request, opaque to the
handler. -/
def NewRequest (r : HttpRequest) : Request :=
  { Raw := r }

/-- A response handle (the first result of a `SessionHandler`, declared outside
`host.go`). -/
structure ResponsePipe where
  id : Nat
  deriving DecidableEq, Repr

/-- A `*log.Logger` handle. -/
structure Logger where
  id : Nat
  deriving DecidableEq, Repr

/-- Type `CallBack`: `func (w http.ResponseWriter, r *http.Request) bool`.  The
first component of the result is the writer as the callback left it. -/
abbrev CallBack := ResponseWriter → HttpRequest → ResponseWriter × Bool

/-- Function `DefaultCallBack`: writes nothing and returns false. -/
def DefaultCallBack : CallBack :=
  fun w _ => (w, false)

/-- Type `ClientFactory` (declared outside `host.go`): `func() (Client, error)`.
Either result may be nil. -/
abbrev ClientFactory := Unit → Option Client × Option GoError

/-- Type `SessionHandler` (declared outside `host.go`): takes the client and the
request, returns a response and an error, either of which may be nil. -/
abbrev SessionHandler := Option Client → Request → Option ResponsePipe × Option GoError

/-- What one call of `WriteTo(w, errBuffer)` that returns leaves behind: the
writer, the error-stream buffer, and the returned error. -/
structure RelayResult where
  w : ResponseWriter
  errBuffer : String
  err : Option GoError
  deriving DecidableEq, Repr

/-- The bodies of the collaborator methods that `host.go` calls but does not
declare.  `Close c` is the result of `c.Close()`.  `WriteTo resp w buf` is the
result of `resp.WriteTo(w, buf)` on a non-nil response.  `nilWriteTo` is the same
call on a nil response: `none` when it panics (a nil dereference), otherwise the
function it computes. -/
structure Methods where
  Close : Client → Option GoError
  WriteTo : ResponsePipe → ResponseWriter → String → RelayResult
  nilWriteTo : Option (ResponseWriter → String → RelayResult)

/-- A logging destination: the standard logger of package `log`, used by
`log.Printf`, or a given `*log.Logger`. -/
inductive Sink where
  | std
  | logger (l : Logger)
  deriving DecidableEq, Repr

/-- A call the handler makes during one dispatch.  `log sink pre arg` is a
`Printf(pre + "%s", arg)` on the sink; the line it produces is `Sprintf pre arg`. -/
inductive Event where
  | callback
  | newClient
  | sessionHandler (c : Option Client) (req : Request)
  | writeTo (resp : Option ResponsePipe)
  | log (sink : Sink) (pre : String) (arg : String)
  | close (c : Client)
  deriving DecidableEq, Repr

/-- Struct `defaultHandler`.  A nil `callback` or `logger` is `none`. -/
structure defaultHandler where
  sessionHandler : SessionHandler
  newClient : ClientFactory
  callback : Option CallBack
  logger : Option Logger

/-- Function `NewHandler`.  The source assigns the type name `CallBack` to the
field `callback`, which is not an expression; the parameter `callback` is what the
field receives here.  The `logger` field is left at its zero value. -/
def NewHandler (sessionHandler : SessionHandler) (clientFactory : ClientFactory)
    (callback : Option CallBack) : defaultHandler :=
  { sessionHandler := sessionHandler
    newClient := clientFactory
    callback := callback
    logger := none }

/-- Method `SetLogger`: stores the logger in the handler. -/
def defaultHandler.SetLogger (h : defaultHandler) (logger : Option Logger) : defaultHandler :=
  { h with logger := logger }

/-- The `log.Printf(pre + "%s", arg)` call: one line on the standard logger. -/
def log.Printf (pre : String) (arg : String) : Event :=
  Event.log Sink.std pre arg

/-- The outcome of one dispatch: the writer, the calls made, and whether the
dispatch ended in a panic instead of returning. -/
structure Dispatch where
  w : ResponseWriter
  trace : List Event
  panicked : Bool
  deriving DecidableEq, Repr

/-- The state after lines 48-52 of `ServeHTTP`: the writer, the calls so far, and
whether the handler returns at line 50.  The test `if h.callback` on a function
value is read as the nil test `h.callback != nil`. -/
structure CallbackStep where
  w : ResponseWriter
  trace : List Event
  stop : Bool
  deriving DecidableEq, Repr

/-- Lines 48-52 of `ServeHTTP`. -/
def runCallback (h : defaultHandler) (w : ResponseWriter) (r : HttpRequest) : CallbackStep :=
  match h.callback with
  | none => { w := w, trace := [], stop := false }
  | some cb => { w := (cb w r).1, trace := [Event.callback], stop := (cb w r).2 }

/-- The deferred function of lines 63-74, run when the rest of `ServeHTTP`
returns or panics with the dispatch in state `d`. -/
def deferredClose (m : Methods) (c : Option Client) (d : Dispatch) : Dispatch :=
  match c with
  | none => d
  | some cl =>
    match m.Close cl with
    | none => { d with trace := d.trace ++ [Event.close cl] }
    | some err =>
      { d with
        trace := d.trace ++ [Event.close cl, log.Printf "gofast: error closing client: " err] }

/-- The fixed text of the format string of line 90. -/
def errStreamFormat : String :=
  "gofast: error stream from application process "

/-- Lines 89-92 of `ServeHTTP`: the error-stream line, when the buffer is not
empty. -/
def logErrBuffer (errBuffer : String) : List Event :=
  if errBuffer.length > 0 then
    [log.Printf errStreamFormat errBuffer]
  else []

/-- Lines 84-92 of `ServeHTTP`, once `WriteTo` has returned `res`. -/
def afterWriteTo (res : RelayResult) (trace : List Event) : Dispatch :=
  let trace1 :=
    match res.err with
    | some err => trace ++ [log.Printf "gofast: problem writing error buffer to response - " err]
    | none => trace
  { w := res.w, trace := trace1 ++ logErrBuffer res.errBuffer, panicked := false }

/-- Lines 77-92 of `ServeHTTP`: the session and the relay, before the deferred
function runs. -/
def serveSession (m : Methods) (h : defaultHandler) (c : Option Client) (w : ResponseWriter)
    (r : HttpRequest) (trace : List Event) : Dispatch :=
  let req := NewRequest r
  let trace1 := trace ++ [Event.sessionHandler c req]
  match h.sessionHandler c req with
  | (_, some err) =>
    { w := http.Error w "failed to process request" StatusInternalServerError
      trace := trace1 ++ [log.Printf "gofast: unable to process request " err]
      panicked := false }
  | (some resp, none) =>
    afterWriteTo (m.WriteTo resp w "") (trace1 ++ [Event.writeTo (some resp)])
  | (none, none) =>
    match m.nilWriteTo with
    | some f => afterWriteTo (f w "") (trace1 ++ [Event.writeTo none])
    | none => { w := w, trace := trace1 ++ [Event.writeTo none], panicked := true }

/-- Method `ServeHTTP` of `defaultHandler`, run with the collaborator methods `m` on
the writer `w` and the request `r`. -/
def defaultHandler.ServeHTTP (h : defaultHandler) (m : Methods) (w : ResponseWriter)
    (r : HttpRequest) : Dispatch :=
  let cb := runCallback h w r
  if cb.stop then
    { w := cb.w, trace := cb.trace, panicked := false }
  else
    match h.newClient () with
    | (_, some err) =>
      { w := http.Error cb.w "failed to connect to FastCGI application" StatusBadGateway
        trace := cb.trace ++
          [Event.newClient, log.Printf "gofast: unable to connect to FastCGI application. " err]
        panicked := false }
    | (c, none) =>
      deferredClose m c (serveSession m h c cb.w r (cb.trace ++ [Event.newClient]))

/-! Observations on a trace -/

/-- The clients on which `Close` was called, in order. -/
def closeCalls (trace : List Event) : List Client :=
  trace.filterMap fun e =>
    match e with
    | Event.close c => some c
    | _ => none

/-- The lines written to a sink, in order. -/
def logLines (sink : Sink) (trace : List Event) : List String :=
  trace.filterMap fun e =>
    match e with
    | Event.log s pre arg => if s = sink then some (Sprintf pre arg) else none
    | _ => none

/-- The arguments of the error-stream `Printf` calls (line 90), in order. -/
def errStreamLogs (trace : List Event) : List String :=
  trace.filterMap fun e =>
    match e with
    | Event.log _ pre arg => if pre = errStreamFormat then some arg else none
    | _ => none

/-- The steps of a dispatch named by the design. -/
inductive Phase where
  | callback
  | acquire
  | session
  | relay
  | errorLog
  | release
  deriving DecidableEq, Repr

/-- The step an event belongs to.  Log lines other than the error-stream line are
not steps of their own. -/
def Event.phase : Event → Option Phase
  | Event.callback => some Phase.callback
  | Event.newClient => some Phase.acquire
  | Event.sessionHandler _ _ => some Phase.session
  | Event.writeTo _ => some Phase.relay
  | Event.log _ pre _ => if pre = errStreamFormat then some Phase.errorLog else none
  | Event.close _ => some Phase.release

/-- The steps of a trace, in order. -/
def phases (trace : List Event) : List Phase :=
  trace.filterMap Event.phase

/-- The order of the steps fixed by the design. -/
def phaseOrder : List Phase :=
  [Phase.callback, Phase.acquire, Phase.session, Phase.relay, Phase.errorLog, Phase.release]

/-- The step sequences that can follow the callback step in one dispatch. -/
def runTails : List (List Phase) :=
  [[Phase.acquire],
   [Phase.acquire, Phase.session],
   [Phase.acquire, Phase.session, Phase.release],
   [Phase.acquire, Phase.session, Phase.relay],
   [Phase.acquire, Phase.session, Phase.relay, Phase.release],
   [Phase.acquire, Phase.session, Phase.relay, Phase.errorLog],
   [Phase.acquire, Phase.session, Phase.relay, Phase.errorLog, Phase.release]]

/-- The step sequences of one dispatch: the callback alone, or one of `runTails`
with or without the callback in front. -/
def allowedRuns : List (List Phase) :=
  [Phase.callback] :: (runTails ++ runTails.map fun t => Phase.callback :: t)

/-! Sample collaborators -/

/-- A request used in the examples. -/
def sampleRequest : HttpRequest :=
  { method := "GET", url := "/index.php" }

/-- Methods whose `Close` succeeds and whose relay writes `OK` and no error
stream; `WriteTo` on a nil response panics. -/
def okMethods : Methods :=
  { Close := fun _ => none
    WriteTo := fun _ w _ => { w := w ++ [WriterCall.write "OK\n"], errBuffer := "", err := none }
    nilWriteTo := none }

/-- Methods whose `Close` fails with `already closed`. -/
def closeFailMethods : Methods :=
  { okMethods with Close := fun _ => some "already closed" }

/-- Methods whose relay also emits an error stream and reports a failure. -/
def stderrMethods : Methods :=
  { okMethods with
    WriteTo := fun _ w buf =>
      { w := w ++ [WriterCall.write "<html></html>"]
        errBuffer := buf ++ "warning: deprecated\n"
        err := some "short write" } }

/-- Methods for which `WriteTo` on a nil response returns without writing. -/
def nilReturnsMethods : Methods :=
  { okMethods with nilWriteTo := some fun w buf => { w := w, errBuffer := buf, err := none } }

/-- A handler with the default callback whose factory and session both succeed. -/
def okHandler : defaultHandler :=
  NewHandler (fun _ _ => (some { id := 7 }, none)) (fun _ => (some { id := 1 }, none))
    (some DefaultCallBack)

/-- A handler whose callback writes `hello` and reports the request as served. -/
def shortCircuitHandler : defaultHandler :=
  { okHandler with callback := some fun w _ => (w ++ [WriterCall.write "hello"], true) }

/-- A handler whose factory fails with `dial tcp: refused`. -/
def noDialHandler : defaultHandler :=
  { okHandler with newClient := fun _ => (none, some "dial tcp: refused") }

/-- A handler whose session returns a nil response and a nil error. -/
def nilResponseHandler : defaultHandler :=
  { okHandler with sessionHandler := fun _ _ => (none, none) }

/-! Lemmas on the parts of a dispatch -/

theorem length_pos_iff_ne_empty (s : String) : s.length > 0 ↔ s ≠ "" := by
  cases s with
  | mk data =>
    cases data with
    | nil => simp [String.length]
    | cons a l =>
      simp [String.length]
      intro hEq
      have hd := congrArg String.data hEq
      simp at hd

theorem runCallback_trace (h : defaultHandler) (w : ResponseWriter) (r : HttpRequest) :
    (runCallback h w r).trace = [] ∨ (runCallback h w r).trace = [Event.callback] := by
  unfold runCallback
  cases h.callback <;> simp

theorem deferredClose_w (m : Methods) (c : Option Client) (d : Dispatch) :
    (deferredClose m c d).w = d.w := by
  unfold deferredClose
  cases c with
  | none => rfl
  | some cl => rcases hcl : m.Close cl with _ | err <;> simp [hcl]

theorem deferredClose_panicked (m : Methods) (c : Option Client) (d : Dispatch) :
    (deferredClose m c d).panicked = d.panicked := by
  unfold deferredClose
  cases c with
  | none => rfl
  | some cl => rcases hcl : m.Close cl with _ | err <;> simp [hcl]

theorem closeCalls_append (a b : List Event) :
    closeCalls (a ++ b) = closeCalls a ++ closeCalls b := by
  simp [closeCalls, List.filterMap_append]

theorem closeCalls_runCallback (h : defaultHandler) (w : ResponseWriter) (r : HttpRequest) :
    closeCalls (runCallback h w r).trace = [] := by
  rcases runCallback_trace h w r with hEq | hEq <;> simp [hEq, closeCalls]

theorem closeCalls_deferredClose (m : Methods) (c : Client) (d : Dispatch) :
    closeCalls (deferredClose m (some c) d).trace = closeCalls d.trace ++ [c] := by
  unfold deferredClose
  rcases hcl : m.Close c with _ | err <;>
    simp [hcl, closeCalls, List.filterMap_append, log.Printf]

theorem closeCalls_afterWriteTo (res : RelayResult) (trace : List Event) :
    closeCalls (afterWriteTo res trace).trace = closeCalls trace := by
  unfold afterWriteTo logErrBuffer
  rcases herr : res.err with _ | err <;> by_cases hlen : res.errBuffer.length > 0 <;>
    simp [herr, closeCalls, List.filterMap_append, log.Printf, hlen]

theorem closeCalls_serveSession (m : Methods) (h : defaultHandler) (c : Option Client)
    (w : ResponseWriter) (r : HttpRequest) (trace : List Event) :
    closeCalls (serveSession m h c w r trace).trace = closeCalls trace := by
  unfold serveSession
  rcases hs : h.sessionHandler c (NewRequest r) with ⟨_ | resp, _ | err⟩ <;>
    rcases hn : m.nilWriteTo with _ | f <;>
    simp [hs, hn, closeCalls_afterWriteTo, closeCalls_append, log.Printf] <;>
    simp [closeCalls]

/-- The dispatch when the factory reports an error. -/
theorem ServeHTTP_factory_error (m : Methods) (h : defaultHandler) (w : ResponseWriter)
    (r : HttpRequest) (oc : Option Client) (e : GoError)
    (hcb : (runCallback h w r).stop = false)
    (hnew : h.newClient () = (oc, some e)) :
    h.ServeHTTP m w r =
      { w := (runCallback h w r).w ++
          [WriterCall.httpError "failed to connect to FastCGI application" 502]
        trace := (runCallback h w r).trace ++
          [Event.newClient,
            Event.log Sink.std "gofast: unable to connect to FastCGI application. " e]
        panicked := false } := by
  unfold defaultHandler.ServeHTTP
  simp [hcb, hnew, http.Error, StatusBadGateway, log.Printf]

/-- The dispatch when the session handler returns a response and no error. -/
theorem ServeHTTP_relay (m : Methods) (h : defaultHandler) (w : ResponseWriter)
    (r : HttpRequest) (oc : Option Client) (resp : ResponsePipe)
    (hcb : (runCallback h w r).stop = false)
    (hnew : h.newClient () = (oc, none))
    (hs : h.sessionHandler oc (NewRequest r) = (some resp, none)) :
    h.ServeHTTP m w r =
      deferredClose m oc
        (afterWriteTo (m.WriteTo resp (runCallback h w r).w "")
          ((runCallback h w r).trace ++
            [Event.newClient, Event.sessionHandler oc (NewRequest r),
              Event.writeTo (some resp)])) := by
  unfold defaultHandler.ServeHTTP serveSession
  simp [hcb, hnew, hs]

/-- The dispatch when the session handler returns neither a response nor an
error. -/
theorem ServeHTTP_nil_response (m : Methods) (h : defaultHandler) (w : ResponseWriter)
    (r : HttpRequest) (oc : Option Client)
    (hcb : (runCallback h w r).stop = false)
    (hnew : h.newClient () = (oc, none))
    (hs : h.sessionHandler oc (NewRequest r) = (none, none)) :
    h.ServeHTTP m w r =
      deferredClose m oc
        (match m.nilWriteTo with
        | some f =>
          afterWriteTo (f (runCallback h w r).w "")
            ((runCallback h w r).trace ++
              [Event.newClient, Event.sessionHandler oc (NewRequest r), Event.writeTo none])
        | none =>
          { w := (runCallback h w r).w
            trace := (runCallback h w r).trace ++
              [Event.newClient, Event.sessionHandler oc (NewRequest r), Event.writeTo none]
            panicked := true }) := by
  unfold defaultHandler.ServeHTTP serveSession
  simp [hcb, hnew, hs]

theorem afterWriteTo_w (res : RelayResult) (trace : List Event) :
    (afterWriteTo res trace).w = res.w := by
  rfl

theorem afterWriteTo_panicked (res : RelayResult) (trace : List Event) :
    (afterWriteTo res trace).panicked = false := by
  rfl

theorem errStream_ne_closing (a b : String) :
    "gofast: error stream from application process " ++ a ≠
      "gofast: error closing client: " ++ b := by
  intro hEq
  have hd := congrArg String.data hEq
  simp [String.data_append] at hd

theorem errStream_ne_writing (a b : String) :
    "gofast: error stream from application process " ++ a ≠
      "gofast: problem writing error buffer to response - " ++ b := by
  intro hEq
  have hd := congrArg String.data hEq
  simp [String.data_append] at hd

theorem logLines_append (sink : Sink) (a b : List Event) :
    logLines sink (a ++ b) = logLines sink a ++ logLines sink b := by
  simp [logLines, List.filterMap_append]

theorem mem_afterWriteTo (res : RelayResult) (trace : List Event) (e : Event)
    (hmem : e ∈ trace) : e ∈ (afterWriteTo res trace).trace := by
  unfold afterWriteTo
  rcases herr : res.err with _ | re <;> simp [herr, hmem]

theorem mem_deferredClose (m : Methods) (c : Option Client) (d : Dispatch) (e : Event)
    (hmem : e ∈ d.trace) : e ∈ (deferredClose m c d).trace := by
  unfold deferredClose
  rcases c with _ | cl
  · exact hmem
  · rcases hcl : m.Close cl with _ | ce <;> simp [hcl, hmem]

/-- The session and the relay do not depend on what `Close` returns. -/
theorem serveSession_congr (m m' : Methods) (h : defaultHandler) (c : Option Client)
    (w : ResponseWriter) (r : HttpRequest) (trace : List Event)
    (hW : m'.WriteTo = m.WriteTo) (hN : m'.nilWriteTo = m.nilWriteTo) :
    serveSession m' h c w r trace = serveSession m h c w r trace := by
  unfold serveSession
  rw [hW, hN]

/-- The writer at the end of a dispatch does not depend on what `Close` returns. -/
theorem ServeHTTP_w_congr (m m' : Methods) (h : defaultHandler) (w : ResponseWriter)
    (r : HttpRequest) (hW : m'.WriteTo = m.WriteTo) (hN : m'.nilWriteTo = m.nilWriteTo) :
    (h.ServeHTTP m' w r).w = (h.ServeHTTP m w r).w := by
  unfold defaultHandler.ServeHTTP
  by_cases hstop : (runCallback h w r).stop = true
  · simp [hstop]
  · rcases hnew : h.newClient () with ⟨oc, _ | e⟩ <;>
      simp [hstop, deferredClose_w, serveSession_congr m m' h _ _ r _ hW hN]

/-- Storing a logger does not change a dispatch: `ServeHTTP` never reads the
`logger` field. -/
theorem ServeHTTP_SetLogger (m : Methods) (h : defaultHandler) (l : Option Logger)
    (w : ResponseWriter) (r : HttpRequest) :
    (h.SetLogger l).ServeHTTP m w r = h.ServeHTTP m w r := by
  rfl

/-- After an acquisition `Close` is called once, on the acquired client. -/
theorem closeCalls_ServeHTTP (m : Methods) (h : defaultHandler) (w : ResponseWriter)
    (r : HttpRequest) (c : Client)
    (hcb : (runCallback h w r).stop = false)
    (hnew : h.newClient () = (some c, none)) :
    closeCalls (h.ServeHTTP m w r).trace = [c] := by
  unfold defaultHandler.ServeHTTP
  simp [hcb, hnew, closeCalls_deferredClose, closeCalls_serveSession, closeCalls_append,
    closeCalls_runCallback]
  simp [closeCalls]

theorem phases_append (a b : List Event) : phases (a ++ b) = phases a ++ phases b := by
  simp [phases, List.filterMap_append]

theorem phases_afterWriteTo (res : RelayResult) (trace : List Event) :
    phases (afterWriteTo res trace).trace =
      phases trace ++ (if res.errBuffer.length > 0 then [Phase.errorLog] else []) := by
  unfold afterWriteTo logErrBuffer
  rcases herr : res.err with _ | re <;> by_cases hlen : res.errBuffer.length > 0 <;>
    simp [herr, hlen, phases, List.filterMap_append, log.Printf, Event.phase, errStreamFormat]

theorem phases_deferredClose (m : Methods) (c : Option Client) (d : Dispatch) :
    phases (deferredClose m c d).trace =
      phases d.trace ++ (if c.isSome then [Phase.release] else []) := by
  unfold deferredClose
  rcases c with _ | cl
  · simp
  · rcases hcl : m.Close cl with _ | ce <;>
      simp [hcl, phases, List.filterMap_append, log.Printf, Event.phase, errStreamFormat]

theorem mem_closeCalls (c : Client) (trace : List Event) (hmem : Event.close c ∈ trace) :
    c ∈ closeCalls trace := by
  unfold closeCalls
  rw [List.mem_filterMap]
  exact ⟨Event.close c, hmem, rfl⟩

theorem runCallback_stop (h : defaultHandler) (w : ResponseWriter) (r : HttpRequest)
    (hstop : (runCallback h w r).stop = true) :
    (runCallback h w r).trace = [Event.callback] := by
  unfold runCallback at hstop ⊢
  rcases hc : h.callback with _ | cb
  · simp [hc] at hstop
  · simp

theorem runCallback_some (h : defaultHandler) (w : ResponseWriter) (r : HttpRequest)
    (cb : CallBack) (hc : h.callback = some cb) :
    (runCallback h w r).trace = [Event.callback] := by
  unfold runCallback
  simp [hc]

theorem afterWriteTo_trace (res : RelayResult) (trace : List Event) :
    ∃ rest, (afterWriteTo res trace).trace = trace ++ rest := by
  unfold afterWriteTo
  rcases herr : res.err with _ | re
  · exact ⟨logErrBuffer res.errBuffer, by simp [herr]⟩
  · exact ⟨log.Printf "gofast: problem writing error buffer to response - " re ::
      logErrBuffer res.errBuffer, by simp [herr]⟩

theorem serveSession_trace (m : Methods) (h : defaultHandler) (c : Option Client)
    (w : ResponseWriter) (r : HttpRequest) (trace : List Event) :
    ∃ rest, (serveSession m h c w r trace).trace = trace ++ rest := by
  unfold serveSession
  rcases hs : h.sessionHandler c (NewRequest r) with ⟨_ | resp, _ | se⟩
  · rcases hn : m.nilWriteTo with _ | f
    · exact ⟨[Event.sessionHandler c (NewRequest r), Event.writeTo none], by simp [hs, hn]⟩
    · obtain ⟨rest, hrest⟩ := afterWriteTo_trace (f w "")
        (trace ++ [Event.sessionHandler c (NewRequest r)] ++ [Event.writeTo none])
      exact ⟨[Event.sessionHandler c (NewRequest r), Event.writeTo none] ++ rest,
        by simpa [hs, hn] using hrest⟩
  · exact ⟨[Event.sessionHandler c (NewRequest r),
      log.Printf "gofast: unable to process request " se], by simp [hs]⟩
  · obtain ⟨rest, hrest⟩ := afterWriteTo_trace (m.WriteTo resp w "")
      (trace ++ [Event.sessionHandler c (NewRequest r)] ++ [Event.writeTo (some resp)])
    exact ⟨[Event.sessionHandler c (NewRequest r), Event.writeTo (some resp)] ++ rest,
      by simpa [hs] using hrest⟩
  · exact ⟨[Event.sessionHandler c (NewRequest r),
      log.Printf "gofast: unable to process request " se], by simp [hs]⟩

theorem phases_serveSession (m : Methods) (h : defaultHandler) (c : Option Client)
    (w : ResponseWriter) (r : HttpRequest) (trace : List Event) :
    ∃ rest,
      phases (serveSession m h c w r trace).trace = phases trace ++ Phase.session :: rest ∧
      (rest = [] ∨ rest = [Phase.relay] ∨ rest = [Phase.relay, Phase.errorLog]) := by
  have hsess : ∀ e, phases (trace ++ [Event.sessionHandler c (NewRequest r), e]) =
      phases trace ++ Phase.session :: phases [e] := by
    intro e
    rw [phases_append]
    simp [phases, Event.phase]
  have hrelay : ∀ resp, phases [Event.writeTo resp] = [Phase.relay] := by
    intro resp
    simp [phases, Event.phase]
  have hlog : ∀ e, phases [log.Printf "gofast: unable to process request " e] = [] := by
    intro e
    simp [phases, Event.phase, log.Printf, errStreamFormat]
  have hafter : ∀ res resp,
      ∃ rest, phases (afterWriteTo res
          (trace ++ [Event.sessionHandler c (NewRequest r), Event.writeTo resp])).trace =
        phases trace ++ Phase.session :: rest ∧
        (rest = [] ∨ rest = [Phase.relay] ∨ rest = [Phase.relay, Phase.errorLog]) := by
    intro res resp
    rw [phases_afterWriteTo, hsess, hrelay]
    by_cases hlen : res.errBuffer.length > 0
    · exact ⟨[Phase.relay, Phase.errorLog], by simp [hlen], by simp⟩
    · exact ⟨[Phase.relay], by simp [hlen], by simp⟩
  unfold serveSession
  rcases hs : h.sessionHandler c (NewRequest r) with ⟨_ | resp, _ | se⟩
  · rcases hn : m.nilWriteTo with _ | f
    · exact ⟨[Phase.relay], by simp [hs, hn, hsess, hrelay], by simp⟩
    · simpa [hs, hn] using hafter (f w "") none
  · exact ⟨[], by simp [hs, hsess, hlog], by simp⟩
  · simpa [hs] using hafter (m.WriteTo resp w "") (some resp)
  · exact ⟨[], by simp [hs, hsess, hlog], by simp⟩

/-- The dispatch when the callback reports the request as served. -/
theorem ServeHTTP_stop (m : Methods) (h : defaultHandler) (w : ResponseWriter)
    (r : HttpRequest) (hstop : (runCallback h w r).stop = true) :
    h.ServeHTTP m w r =
      { w := (runCallback h w r).w, trace := [Event.callback], panicked := false } := by
  unfold defaultHandler.ServeHTTP
  simp [hstop, runCallback_stop h w r hstop]

/-- The dispatch when the factory reports no error. -/
theorem ServeHTTP_acquired (m : Methods) (h : defaultHandler) (w : ResponseWriter)
    (r : HttpRequest) (oc : Option Client)
    (hcb : (runCallback h w r).stop = false)
    (hnew : h.newClient () = (oc, none)) :
    h.ServeHTTP m w r =
      deferredClose m oc
        (serveSession m h oc (runCallback h w r).w r
          ((runCallback h w r).trace ++ [Event.newClient])) := by
  unfold defaultHandler.ServeHTTP
  simp [hcb, hnew]

/-- The steps of a dispatch form one of the sequences of `allowedRuns`. -/
theorem phases_ServeHTTP (m : Methods) (h : defaultHandler) (w : ResponseWriter)
    (r : HttpRequest) : phases (h.ServeHTTP m w r).trace ∈ allowedRuns := by
  by_cases hstop : (runCallback h w r).stop = true
  · rw [ServeHTTP_stop m h w r hstop]
    simp [phases, Event.phase, allowedRuns]
  · have hfalse : (runCallback h w r).stop = false := by simpa using hstop
    rcases hnew : h.newClient () with ⟨oc, _ | e⟩
    · obtain ⟨rest, hrest, hshape⟩ :=
        phases_serveSession m h oc (runCallback h w r).w r
          ((runCallback h w r).trace ++ [Event.newClient])
      rw [ServeHTTP_acquired m h w r oc hfalse hnew, phases_deferredClose, hrest, phases_append]
      rcases runCallback_trace h w r with ht | ht <;>
        rcases hshape with hr | hr | hr <;>
        rcases oc with _ | c <;>
        simp [ht, hr, phases, Event.phase, allowedRuns, runTails]
    · rw [ServeHTTP_factory_error m h w r oc e hfalse hnew]
      rcases runCallback_trace h w r with ht | ht <;>
        simp [ht, phases, Event.phase, allowedRuns, runTails, errStreamFormat]

/-- What every sequence of `allowedRuns` satisfies. -/
theorem allowedRuns_order :
    ∀ l ∈ allowedRuns,
      l.Sublist phaseOrder ∧
      l.count Phase.session ≤ 1 ∧
      (Phase.session ∈ l → Phase.acquire ∈ l) ∧
      (Phase.relay ∈ l → Phase.session ∈ l) ∧
      (Phase.errorLog ∈ l → Phase.relay ∈ l) ∧
      (Phase.release ∈ l → Phase.session ∈ l ∧ l.getLast? = some Phase.release) := by
  decide

theorem deferredClose_trace (m : Methods) (c : Option Client) (d : Dispatch) :
    ∃ rest, (deferredClose m c d).trace = d.trace ++ rest := by
  unfold deferredClose
  rcases c with _ | cl
  · exact ⟨[], by simp⟩
  · rcases hcl : m.Close cl with _ | ce
    · exact ⟨[Event.close cl], by simp [hcl]⟩
    · exact ⟨[Event.close cl, log.Printf "gofast: error closing client: " ce], by simp [hcl]⟩

/-- A non-nil callback is the first call of the dispatch. -/
theorem callback_is_first (m : Methods) (h : defaultHandler) (w : ResponseWriter)
    (r : HttpRequest) (cb : CallBack) (hc : h.callback = some cb) :
    (h.ServeHTTP m w r).trace.head? = some Event.callback := by
  have ht := runCallback_some h w r cb hc
  by_cases hstop : (runCallback h w r).stop = true
  · rw [ServeHTTP_stop m h w r hstop]
    rfl
  · have hfalse : (runCallback h w r).stop = false := by simpa using hstop
    rcases hnew : h.newClient () with ⟨oc, _ | e⟩
    · obtain ⟨rest, hrest⟩ := serveSession_trace m h oc (runCallback h w r).w r
        ((runCallback h w r).trace ++ [Event.newClient])
      obtain ⟨rest2, hrest2⟩ := deferredClose_trace m oc
        (serveSession m h oc (runCallback h w r).w r
          ((runCallback h w r).trace ++ [Event.newClient]))
      rw [ServeHTTP_acquired m h w r oc hfalse hnew, hrest2, hrest, ht]
      rfl
    · rw [ServeHTTP_factory_error m h w r oc e hfalse hnew, ht]
      rfl

/-- The session handler is called only when the factory returned no error. -/
theorem session_needs_acquisition (m : Methods) (h : defaultHandler) (w : ResponseWriter)
    (r : HttpRequest) (hmem : Phase.session ∈ phases (h.ServeHTTP m w r).trace) :
    (h.newClient ()).2 = none := by
  rcases hnew : h.newClient () with ⟨oc, _ | e⟩
  · rfl
  · exfalso
    by_cases hstop : (runCallback h w r).stop = true
    · unfold defaultHandler.ServeHTTP at hmem
      simp [hstop, runCallback_stop h w r hstop, phases, Event.phase] at hmem
    · have hfalse : (runCallback h w r).stop = false := by simpa using hstop
      rw [ServeHTTP_factory_error m h w r oc e hfalse hnew] at hmem
      rcases runCallback_trace h w r with ht | ht <;>
        simp [ht, phases, Event.phase, errStreamFormat] at hmem

/-- Nothing but the line reporting its failure follows the `Close` call. -/
theorem close_is_last_call (m : Methods) (h : defaultHandler) (w : ResponseWriter)
    (r : HttpRequest) (c : Client) (hmem : Event.close c ∈ (h.ServeHTTP m w r).trace) :
    ∃ before, closeCalls before = [] ∧
      ((h.ServeHTTP m w r).trace = before ++ [Event.close c] ∨
        ∃ e, (h.ServeHTTP m w r).trace =
          before ++ [Event.close c, Event.log Sink.std "gofast: error closing client: " e]) := by
  have hin := mem_closeCalls c _ hmem
  by_cases hstop : (runCallback h w r).stop = true
  · unfold defaultHandler.ServeHTTP at hin
    simp [hstop, closeCalls_runCallback] at hin
  · have hfalse : (runCallback h w r).stop = false := by simpa using hstop
    rcases hnew : h.newClient () with ⟨oc, _ | e⟩
    · rcases oc with _ | c'
      · unfold defaultHandler.ServeHTTP deferredClose at hin
        simp [hfalse, hnew, closeCalls_serveSession, closeCalls_append,
          closeCalls_runCallback] at hin
        simp [closeCalls] at hin
      · rw [closeCalls_ServeHTTP m h w r c' hfalse hnew] at hin
        have hc : c = c' := by simpa using hin
        subst hc
        refine ⟨(serveSession m h (some c) (runCallback h w r).w r
          ((runCallback h w r).trace ++ [Event.newClient])).trace, ?_, ?_⟩
        · simp [closeCalls_serveSession, closeCalls_append, closeCalls_runCallback]
          simp [closeCalls]
        · unfold defaultHandler.ServeHTTP deferredClose
          rcases hcl : m.Close c with _ | ce <;> simp [hfalse, hnew, hcl, log.Printf]
    · rw [ServeHTTP_factory_error m h w r oc e hfalse hnew] at hin
      simp [closeCalls_append, closeCalls_runCallback] at hin
      simp [closeCalls] at hin

/-- C1: in every dispatch that gets past the callback and in which the factory
returns a client `c` and no error, `Close` is called exactly once, on `c`,
whatever the session handler and the relay do afterwards. -/
theorem close_called_exactly_once (m : Methods) (h : defaultHandler) (w : ResponseWriter)
    (r : HttpRequest) (c : Client)
    (hcb : (runCallback h w r).stop = false)
    (hnew : h.newClient () = (some c, none)) :
    closeCalls (h.ServeHTTP m w r).trace = [c] :=
  closeCalls_ServeHTTP m h w r c hcb hnew

theorem close_called_exactly_once_witness :
    (runCallback okHandler [] sampleRequest).stop = false ∧
    okHandler.newClient () = (some { id := 1 }, none) ∧
    closeCalls (okHandler.ServeHTTP stderrMethods [] sampleRequest).trace = [{ id := 1 }] :=
  ⟨by decide, by decide,
    close_called_exactly_once stderrMethods okHandler [] sampleRequest { id := 1 }
      (by decide) (by decide)⟩

/-- C2: when the callback returns true the dispatch consists of the callback call
alone: the writer is as the callback left it, neither the factory nor the session
handler is called, and no line is logged on any sink. -/
theorem callback_true_returns_at_once (m : Methods) (h : defaultHandler) (w : ResponseWriter)
    (r : HttpRequest) (cb : CallBack)
    (hcb : h.callback = some cb)
    (htrue : (cb w r).2 = true) :
    (h.ServeHTTP m w r).w = (cb w r).1 ∧
    (h.ServeHTTP m w r).trace = [Event.callback] ∧
    (h.ServeHTTP m w r).panicked = false ∧
    Event.newClient ∉ (h.ServeHTTP m w r).trace ∧
    (∀ c req, Event.sessionHandler c req ∉ (h.ServeHTTP m w r).trace) ∧
    (∀ sink, logLines sink (h.ServeHTTP m w r).trace = []) := by
  have hrun : h.ServeHTTP m w r =
      { w := (cb w r).1, trace := [Event.callback], panicked := false } := by
    unfold defaultHandler.ServeHTTP runCallback
    simp [hcb, htrue]
  simp [hrun, logLines]

theorem callback_true_returns_at_once_witness :
    shortCircuitHandler.callback = some (fun w _ => (w ++ [WriterCall.write "hello"], true)) ∧
    (shortCircuitHandler.ServeHTTP okMethods [] sampleRequest).w = [WriterCall.write "hello"] ∧
    (shortCircuitHandler.ServeHTTP okMethods [] sampleRequest).trace = [Event.callback] ∧
    logLines Sink.std (shortCircuitHandler.ServeHTTP okMethods [] sampleRequest).trace = [] :=
  have hall := callback_true_returns_at_once okMethods shortCircuitHandler [] sampleRequest
    (fun w _ => (w ++ [WriterCall.write "hello"], true)) rfl rfl
  ⟨rfl, hall.1, hall.2.1, hall.2.2.2.2.2 Sink.std⟩

/-- C5: when the callback does not stop the dispatch, the factory reports no error
and the session handler returns a response and no error, the writer at the end of
the dispatch is exactly the writer `WriteTo` returned, whether or not `WriteTo`
reported an error: the handler makes no call of its own on the writer. -/
theorem success_writer_is_relay_output (m : Methods) (h : defaultHandler) (w : ResponseWriter)
    (r : HttpRequest) (oc : Option Client) (resp : ResponsePipe)
    (hcb : (runCallback h w r).stop = false)
    (hnew : h.newClient () = (oc, none))
    (hs : h.sessionHandler oc (NewRequest r) = (some resp, none)) :
    (h.ServeHTTP m w r).w = (m.WriteTo resp (runCallback h w r).w "").w := by
  rw [ServeHTTP_relay m h w r oc resp hcb hnew hs, deferredClose_w, afterWriteTo_w]

theorem success_writer_is_relay_output_witness :
    (runCallback okHandler [] sampleRequest).stop = false ∧
    okHandler.newClient () = (some { id := 1 }, none) ∧
    okHandler.sessionHandler (some { id := 1 }) (NewRequest sampleRequest) =
      (some { id := 7 }, none) ∧
    (okHandler.ServeHTTP stderrMethods [] sampleRequest).w =
      [WriterCall.write "<html></html>"] :=
  ⟨by decide, by decide, by decide,
    success_writer_is_relay_output stderrMethods okHandler [] sampleRequest (some { id := 1 })
      { id := 7 } (by decide) (by decide) (by decide)⟩

/-- C6: in a dispatch that reaches the relay, `WriteTo` is given an empty buffer;
afterwards the error-stream `Printf` is made exactly once, with the buffer as its
argument, when the buffer is not empty, and not at all when it is empty, whatever
error `WriteTo` returned; the line "gofast: error stream from application process "
followed by the buffer then occurs the same number of times on the standard
logger; and the writer is the one `WriteTo` returned, so the handler writes none
of the buffer to it. -/
theorem error_stream_logged_iff_nonempty (m : Methods) (h : defaultHandler)
    (w : ResponseWriter) (r : HttpRequest) (oc : Option Client) (resp : ResponsePipe)
    (hcb : (runCallback h w r).stop = false)
    (hnew : h.newClient () = (oc, none))
    (hs : h.sessionHandler oc (NewRequest r) = (some resp, none)) :
    errStreamLogs (h.ServeHTTP m w r).trace =
      (if (m.WriteTo resp (runCallback h w r).w "").errBuffer = "" then []
       else [(m.WriteTo resp (runCallback h w r).w "").errBuffer]) ∧
    (logLines Sink.std (h.ServeHTTP m w r).trace).count
        ("gofast: error stream from application process " ++
          (m.WriteTo resp (runCallback h w r).w "").errBuffer) =
      (if (m.WriteTo resp (runCallback h w r).w "").errBuffer = "" then 0 else 1) ∧
    (h.ServeHTTP m w r).w = (m.WriteTo resp (runCallback h w r).w "").w := by
  rw [ServeHTTP_relay m h w r oc resp hcb hnew hs, deferredClose_w, afterWriteTo_w]
  unfold deferredClose afterWriteTo logErrBuffer
  have hne := length_pos_iff_ne_empty (m.WriteTo resp (runCallback h w r).w "").errBuffer
  have hw := fun a b => (errStream_ne_writing a b).symm
  have hc := fun a b => (errStream_ne_closing a b).symm
  by_cases hbuf : (m.WriteTo resp (runCallback h w r).w "").errBuffer = ""
  · have hlen : ¬ (m.WriteTo resp (runCallback h w r).w "").errBuffer.length > 0 := by
      rw [hne]; simp [hbuf]
    rw [if_pos hbuf, if_pos hbuf]
    rcases oc with _ | c
    · rcases runCallback_trace h w r with ht | ht <;>
        rcases herr : (m.WriteTo resp (runCallback h w r).w "").err with _ | re <;>
        simp [ht, herr, hlen, errStreamLogs, logLines, log.Printf, Sprintf, errStreamFormat,
          List.filterMap_append, List.count_cons, hw, hc]
    · rcases runCallback_trace h w r with ht | ht <;>
        rcases herr : (m.WriteTo resp (runCallback h w r).w "").err with _ | re <;>
        rcases hcl : m.Close c with _ | ce <;>
        simp [ht, herr, hlen, hcl, errStreamLogs, logLines, log.Printf, Sprintf,
          errStreamFormat, List.filterMap_append, List.count_cons, hw, hc]
  · have hlen : (m.WriteTo resp (runCallback h w r).w "").errBuffer.length > 0 := by
      rw [hne]; exact hbuf
    rw [if_neg hbuf, if_neg hbuf]
    rcases oc with _ | c
    · rcases runCallback_trace h w r with ht | ht <;>
        rcases herr : (m.WriteTo resp (runCallback h w r).w "").err with _ | re <;>
        simp [ht, herr, hlen, errStreamLogs, logLines, log.Printf, Sprintf, errStreamFormat,
          List.filterMap_append, List.count_cons, hw, hc]
    · rcases runCallback_trace h w r with ht | ht <;>
        rcases herr : (m.WriteTo resp (runCallback h w r).w "").err with _ | re <;>
        rcases hcl : m.Close c with _ | ce <;>
        simp [ht, herr, hlen, hcl, errStreamLogs, logLines, log.Printf, Sprintf,
          errStreamFormat, List.filterMap_append, List.count_cons, hw, hc]

theorem error_stream_logged_iff_nonempty_witness :
    (runCallback okHandler [] sampleRequest).stop = false ∧
    okHandler.newClient () = (some { id := 1 }, none) ∧
    okHandler.sessionHandler (some { id := 1 }) (NewRequest sampleRequest) =
      (some { id := 7 }, none) ∧
    errStreamLogs (okHandler.ServeHTTP stderrMethods [] sampleRequest).trace =
      ["warning: deprecated\n"] ∧
    errStreamLogs (okHandler.ServeHTTP okMethods [] sampleRequest).trace = [] :=
  ⟨by decide, by decide, by decide,
    (error_stream_logged_iff_nonempty stderrMethods okHandler [] sampleRequest
      (some { id := 1 }) { id := 7 } (by decide) (by decide) (by decide)).1.trans (by decide),
    by decide⟩

/-- C7 as stated fails: with a client acquired and a session handler returning a
nil response and a nil error, the handler makes no call on the writer when
`WriteTo` on the nil response returns, and the dispatch panics when that call
panics; in neither case is a 500 written. -/
theorem nil_response_is_not_500 :
    (runCallback nilResponseHandler [] sampleRequest).stop = false ∧
    nilResponseHandler.newClient () = (some { id := 1 }, none) ∧
    nilResponseHandler.sessionHandler (some { id := 1 }) (NewRequest sampleRequest) =
      (none, none) ∧
    (nilResponseHandler.ServeHTTP nilReturnsMethods [] sampleRequest).w = [] ∧
    (nilResponseHandler.ServeHTTP okMethods [] sampleRequest).w = [] ∧
    (nilResponseHandler.ServeHTTP okMethods [] sampleRequest).panicked = true := by
  decide

/-- C7, amended: when a client `c` is acquired and the session handler returns a
nil response and a nil error, the handler does not take the error path: it logs
no session-failure line and calls `WriteTo` on the nil response; when that call
returns, the writer is the one it returned and the dispatch returns; when it
panics, the writer is as the callback left it and the dispatch panics; in both
cases `Close` is called exactly once, on `c`. -/
theorem nil_response_goes_to_relay (m : Methods) (h : defaultHandler) (w : ResponseWriter)
    (r : HttpRequest) (c : Client)
    (hcb : (runCallback h w r).stop = false)
    (hnew : h.newClient () = (some c, none))
    (hs : h.sessionHandler (some c) (NewRequest r) = (none, none)) :
    Event.writeTo none ∈ (h.ServeHTTP m w r).trace ∧
    (∀ e, Event.log Sink.std "gofast: unable to process request " e ∉
      (h.ServeHTTP m w r).trace) ∧
    (∀ f, m.nilWriteTo = some f →
      (h.ServeHTTP m w r).w = (f (runCallback h w r).w "").w ∧
      (h.ServeHTTP m w r).panicked = false) ∧
    (m.nilWriteTo = none →
      (h.ServeHTTP m w r).w = (runCallback h w r).w ∧
      (h.ServeHTTP m w r).panicked = true) ∧
    closeCalls (h.ServeHTTP m w r).trace = [c] := by
  refine ⟨?_, ?_, ?_, ?_, closeCalls_ServeHTTP m h w r c hcb hnew⟩
  all_goals rw [ServeHTTP_nil_response m h w r (some c) hcb hnew hs]
  · apply mem_deferredClose
    rcases hn : m.nilWriteTo with _ | f
    · simp
    · exact mem_afterWriteTo _ _ _ (by simp)
  · intro e
    unfold deferredClose afterWriteTo logErrBuffer
    rcases hn : m.nilWriteTo with _ | f
    · rcases runCallback_trace h w r with ht | ht <;>
        rcases hcl : m.Close c with _ | ce <;>
        simp [ht, hcl, log.Printf]
    · rcases runCallback_trace h w r with ht | ht <;>
        rcases hcl : m.Close c with _ | ce <;>
        rcases herr : (f (runCallback h w r).w "").err with _ | re <;>
        by_cases hlen : (f (runCallback h w r).w "").errBuffer.length > 0 <;>
        simp [ht, hcl, herr, hlen, log.Printf, errStreamFormat]
  · intro f hf
    simp [hf, deferredClose_w, deferredClose_panicked, afterWriteTo_w, afterWriteTo_panicked]
  · intro hn
    simp [hn, deferredClose_w, deferredClose_panicked]

theorem nil_response_goes_to_relay_witness :
    (runCallback nilResponseHandler [] sampleRequest).stop = false ∧
    nilResponseHandler.newClient () = (some { id := 1 }, none) ∧
    nilResponseHandler.sessionHandler (some { id := 1 }) (NewRequest sampleRequest) =
      (none, none) ∧
    closeCalls (nilResponseHandler.ServeHTTP okMethods [] sampleRequest).trace = [{ id := 1 }] ∧
    Event.writeTo none ∈ (nilResponseHandler.ServeHTTP okMethods [] sampleRequest).trace :=
  have hall := nil_response_goes_to_relay okMethods nilResponseHandler [] sampleRequest
    { id := 1 } (by decide) (by decide) (by decide)
  ⟨by decide, by decide, by decide, hall.2.2.2.2, hall.1⟩

/-- C8 fails on the code: after `SetLogger` with a non-nil logger, a dispatch whose
factory fails with "dial tcp: refused" writes nothing to that logger; its line
goes to the standard logger of package `log`. -/
theorem set_logger_is_not_used :
    (noDialHandler.SetLogger (some { id := 3 })).logger = some { id := 3 } ∧
    logLines (Sink.logger { id := 3 })
      ((noDialHandler.SetLogger (some { id := 3 })).ServeHTTP okMethods [] sampleRequest).trace =
      [] ∧
    logLines Sink.std
      ((noDialHandler.SetLogger (some { id := 3 })).ServeHTTP okMethods [] sampleRequest).trace =
      ["gofast: unable to connect to FastCGI application. dial tcp: refused"] := by
  decide

/-- C9: when `Close` on the acquired client fails with `e`, the writer at the end of
the dispatch is the same as in any dispatch that differs only in what `Close`
returns, in particular the one in which `Close` succeeds; and the line "gofast:
error closing client: " followed by `e` is logged. -/
theorem close_failure_keeps_response (m m' : Methods) (h : defaultHandler)
    (w : ResponseWriter) (r : HttpRequest) (c : Client) (e : GoError)
    (hcb : (runCallback h w r).stop = false)
    (hnew : h.newClient () = (some c, none))
    (hfail : m.Close c = some e)
    (hW : m'.WriteTo = m.WriteTo) (hN : m'.nilWriteTo = m.nilWriteTo) :
    (h.ServeHTTP m w r).w = (h.ServeHTTP m' w r).w ∧
    "gofast: error closing client: " ++ e ∈ logLines Sink.std (h.ServeHTTP m w r).trace := by
  refine ⟨(ServeHTTP_w_congr m m' h w r hW hN).symm, ?_⟩
  unfold defaultHandler.ServeHTTP deferredClose
  simp [hcb, hnew, hfail, logLines_append]
  right
  simp [logLines, log.Printf, Sprintf]

theorem close_failure_keeps_response_witness :
    (runCallback okHandler [] sampleRequest).stop = false ∧
    okHandler.newClient () = (some { id := 1 }, none) ∧
    closeFailMethods.Close { id := 1 } = some "already closed" ∧
    okMethods.Close { id := 1 } = none ∧
    (okHandler.ServeHTTP closeFailMethods [] sampleRequest).w =
      (okHandler.ServeHTTP okMethods [] sampleRequest).w ∧
    "gofast: error closing client: already closed" ∈
      logLines Sink.std (okHandler.ServeHTTP closeFailMethods [] sampleRequest).trace :=
  have hall := close_failure_keeps_response closeFailMethods okMethods okHandler []
    sampleRequest { id := 1 } "already closed" (by decide) (by decide) rfl rfl rfl
  ⟨by decide, by decide, by decide, by decide, hall.1, hall.2⟩

/-- C10: the steps of one dispatch (callback, acquire, session, relay,
error-stream log, release) occur in that order, each at most once, and a step
occurs only after the steps it depends on: a non-nil callback is the first call of
the dispatch, so it precedes the factory; the session handler is called only after
the factory returned no error, and once; the relay only after the session; the
error-stream log only after the relay; the release only after the session, as the
last step, and the only thing that can follow the `Close` call is the line
reporting its failure. -/
theorem dispatch_steps_in_order (m : Methods) (h : defaultHandler) (w : ResponseWriter)
    (r : HttpRequest) :
    phases (h.ServeHTTP m w r).trace ∈ allowedRuns ∧
    (phases (h.ServeHTTP m w r).trace).Sublist phaseOrder ∧
    (phases (h.ServeHTTP m w r).trace).count Phase.session ≤ 1 ∧
    (∀ cb, h.callback = some cb → (h.ServeHTTP m w r).trace.head? = some Event.callback) ∧
    (Phase.session ∈ phases (h.ServeHTTP m w r).trace →
      (h.newClient ()).2 = none ∧ Phase.acquire ∈ phases (h.ServeHTTP m w r).trace) ∧
    (Phase.relay ∈ phases (h.ServeHTTP m w r).trace →
      Phase.session ∈ phases (h.ServeHTTP m w r).trace) ∧
    (Phase.errorLog ∈ phases (h.ServeHTTP m w r).trace →
      Phase.relay ∈ phases (h.ServeHTTP m w r).trace) ∧
    (Phase.release ∈ phases (h.ServeHTTP m w r).trace →
      Phase.session ∈ phases (h.ServeHTTP m w r).trace ∧
      (phases (h.ServeHTTP m w r).trace).getLast? = some Phase.release) ∧
    (∀ c, Event.close c ∈ (h.ServeHTTP m w r).trace →
      ∃ before, closeCalls before = [] ∧
        ((h.ServeHTTP m w r).trace = before ++ [Event.close c] ∨
          ∃ e, (h.ServeHTTP m w r).trace =
            before ++ [Event.close c, Event.log Sink.std "gofast: error closing client: " e])) := by
  have hmem := phases_ServeHTTP m h w r
  have hord := allowedRuns_order _ hmem
  exact ⟨hmem, hord.1, hord.2.1, fun cb hc => callback_is_first m h w r cb hc,
    fun hs => ⟨session_needs_acquisition m h w r hs, hord.2.2.1 hs⟩,
    hord.2.2.2.1, hord.2.2.2.2.1, hord.2.2.2.2.2,
    fun c hc => close_is_last_call m h w r c hc⟩

theorem dispatch_steps_in_order_witness :
    phases (okHandler.ServeHTTP stderrMethods [] sampleRequest).trace = phaseOrder ∧
    (phases (okHandler.ServeHTTP stderrMethods [] sampleRequest).trace).getLast? =
      some Phase.release :=
  ⟨by decide,
    ((dispatch_steps_in_order stderrMethods okHandler [] sampleRequest).2.2.2.2.2.2.2.1
      (by decide)).2⟩

end gofast
